import Mathlib

/-!
Shallow embedding of the FAT16/FAT32 on-disk decoders of fat.rs and
fat32.rs.  The backing image is modelled as a partial map from byte
offsets to byte values (a read past the end of the image returns none,
matching an IO error of the Rust read calls).  Machine-integer
arithmetic that can wrap for in-range field values is modelled with an
explicit mod (release-mode two's-complement semantics); assertion
failures and arithmetic that the source guards with an assert are
modelled by an explicit panic result.  Loops that the source does not
bound are given explicit fuel, with a distinct out-of-fuel result, so
that non-termination of the source is observable as an out-of-fuel
result at every fuel.
-/

namespace FatRs

/-- A disk image: byte value at each offset, none past the end. -/
def Disk : Type := Nat → Option Nat

/-- Read one byte at an absolute offset. -/
def readByte (d : Disk) (p : Nat) : Option Nat := d p

/-- Read n consecutive bytes starting at an absolute offset
(read_exact: fails if any byte is missing). -/
def readBytes (d : Disk) (p : Nat) : Nat → Option (List Nat)
  | 0 => some []
  | n+1 =>
    match d p, readBytes d (p+1) n with
    | some b, some bs => some (b :: bs)
    | _, _ => none

/-- Little-endian u16 read. -/
def readU16 (d : Disk) (p : Nat) : Option Nat :=
  match d p, d (p+1) with
  | some b0, some b1 => some (b0 + 256 * b1)
  | _, _ => none

/-- Little-endian u32 read. -/
def readU32 (d : Disk) (p : Nat) : Option Nat :=
  match d p, d (p+1), d (p+2), d (p+3) with
  | some b0, some b1, some b2, some b3 =>
    some (b0 + 256 * b1 + 65536 * b2 + 16777216 * b3)
  | _, _, _, _ => none

/-- Little-endian u64 read (used only to skip 8 bytes with read_u64). -/
def readU64 (d : Disk) (p : Nat) : Option Nat :=
  match readBytes d p 8 with
  | some bs => some (bs.foldr (fun b acc => b + 256 * acc) 0)
  | none => none

/-! ## FAT16 variant: fat.rs -/

/-- BootRecord of fat.rs (BIOS parameter block fields that the parser
keeps).  Field widths on disk: sector_size u16, cluster_size u8,
reserved_sectors u16, fat_count u8, root_entries u16, sector_count u16,
fat_size u16, large_sector_count u32, label 11 bytes. -/
structure BootRecord where
  sector_size : Nat
  cluster_size : Nat
  reserved_sectors : Nat
  fat_count : Nat
  root_entries : Nat
  sector_count : Nat
  fat_size : Nat
  large_sector_count : Nat
  flags : Nat
  label : List Nat
deriving DecidableEq

/-- DirectoryEntry of fat.rs: 8-byte name, 3-byte extension, attribute
flags, 16-bit first cluster, 32-bit size. -/
structure Entry16 where
  name : List Nat
  ext : List Nat
  flags : Nat
  first_cluster : Nat
  size : Nat
deriving DecidableEq

/-- DirType of fat.rs: the fixed root region (start sector, entry
count) or a regular directory given by its first cluster. -/
inductive DirType where
  | Root (start : Nat) (count : Nat)
  | Regular (start : Nat)
deriving DecidableEq

/-- Outcome of a fat.rs read_directory call.  ok and ioError are the
Ok/Err results of the Rust function; panic marks an arithmetic-overflow
abort; outOfFuel marks an execution that did not finish within the
given loop-iteration budget (the Rust loop is unbounded). -/
inductive Rd16 where
  | ok (entries : List Entry16)
  | ioError
  | panic
  | outOfFuel
deriving DecidableEq

/-- FileSystem::sectors_count: the 16-bit field when non-zero,
otherwise the 32-bit large_sector_count field. -/
def sectorsCount (br : BootRecord) : Nat :=
  if br.sector_count ≠ 0 then br.sector_count else br.large_sector_count

/-- FileSystem::fat_start_sector. -/
def fatStartSector (br : BootRecord) : Nat :=
  br.reserved_sectors

/-- FileSystem::root_start_sector. -/
def rootStartSector (br : BootRecord) : Nat :=
  fatStartSector br + br.fat_count * br.fat_size

/-- FileSystem::data_start_sector.  root_entries is shifted left by 5
in u16 arithmetic (the shifted-out bits wrap) and divided by the
sector size in u16 arithmetic. -/
def dataStartSector (br : BootRecord) : Nat :=
  rootStartSector br + ((br.root_entries <<< 5) % 65536) / br.sector_size

/-- FileSystem::cluster_start.  The u16 subtraction cluster - 2 wraps
modulo 2^16, then the product and sum are computed in u32 (in range
for in-range fields). -/
def clusterStart (br : BootRecord) (cluster : Nat) : Nat :=
  dataStartSector br + ((cluster + 65534) % 65536) * br.cluster_size

/-- FileSystem::fat_lookup: 16-bit FAT entry of a cluster, read at
fat_start_sector * sector_size + 2 * cluster (u32 arithmetic). -/
def fatLookup (d : Disk) (br : BootRecord) (cluster : Nat) : Option Nat :=
  readU16 d ((fatStartSector br * br.sector_size + cluster * 2) % 4294967296)

/-- Result of decoding one 32-byte record in the fat.rs loop body:
either a final outcome (terminator hit or read failure) or the next
loop state (entry counter, byte position, accumulated entries in
reverse order). -/
inductive Step16 where
  | fin (r : Rd16)
  | next (cnt : Nat) (pos : Nat) (entries : List Entry16)

/-- One record decode of the fat.rs loop body: read the 8-byte name
and 3-byte extension, stop on a 0x00 first name byte, then read the
attribute byte, skip 14 bytes, and read the 16-bit first cluster and
the 32-bit size; records with attribute 0x0f are not pushed. -/
def decode16 (d : Disk) (pos : Nat) (cnt : Nat) (es : List Entry16) : Step16 :=
  match readBytes d pos 8, readBytes d (pos + 8) 3 with
  | some nm, some ex =>
    if nm.headD 1 = 0 then .fin (.ok es.reverse)
    else
      match readByte d (pos + 11), readU16 d (pos + 26), readU32 d (pos + 28) with
      | some fl, some fc, some sz =>
        .next (cnt + 1) (pos + 32)
          (if fl = 0xf then es else ⟨nm, ex, fl, fc, sz⟩ :: es)
      | _, _, _ => .fin .ioError
  | _, _ => .fin .ioError

/-- The unbounded loop of FileSystem::read_directory, with fuel.  Each
fuel step is one iteration of the Rust loop: the cluster-exhausted
check (with the root break, the current-cluster end-marker check, the
FAT lookup and the free-marker break) followed by one record decode. -/
def loop16 (d : Disk) (br : BootRecord) (isRoot : Bool) (ec : Nat) :
    Nat → Nat → Nat → Nat → List Entry16 → Rd16
  | 0, _, _, _, _ => .outOfFuel
  | fuel+1, cluster, cnt, pos, es =>
    if cnt = ec then
      if isRoot then .ok es.reverse
      else if 0xffef < cluster then .ok es.reverse
      else
        match fatLookup d br cluster with
        | none => .ioError
        | some c2 =>
          if c2 < 2 then .ok es.reverse
          else
            match decode16 d ((clusterStart br c2 * br.sector_size) % 4294967296) 0 es with
            | .fin r => r
            | .next cnt2 pos2 es2 => loop16 d br isRoot ec fuel c2 cnt2 pos2 es2
    else
      match decode16 d pos cnt es with
      | .fin r => r
      | .next cnt2 pos2 es2 => loop16 d br isRoot ec fuel cluster cnt2 pos2 es2

/-- FileSystem::read_directory of fat.rs.  For a regular directory the
first cluster's FAT entry is looked up first and a value below 2
yields an empty listing; the per-cluster entry budget is
cluster_size * sector_size / 32 computed in u16 arithmetic. -/
def readDirectory16 (d : Disk) (br : BootRecord) (fuel : Nat) : DirType → Rd16
  | .Root start cnt =>
    loop16 d br true cnt fuel 0 0 ((start * br.sector_size) % 4294967296) []
  | .Regular start =>
    match fatLookup d br start with
    | none => .ioError
    | some fat =>
      if fat < 2 then .ok []
      else
        loop16 d br false (((br.cluster_size * br.sector_size) % 65536) >>> 5)
          fuel start 0 ((clusterStart br start * br.sector_size) % 4294967296) []

/-- FileSystem::root_directory. -/
def rootDirectory (br : BootRecord) : DirType :=
  .Root (rootStartSector br) br.root_entries

/-- BootRecord::parse of fat.rs: sequential reads starting at byte 11;
any failing read is an IO error; the extended-boot-record signature
byte at offset 38 is asserted to be 0x28 or 0x29 (assertion failure is
a panic). -/
inductive Parse16 where
  | ok (br : BootRecord)
  | ioError
  | panic
deriving DecidableEq

/-- The fat.rs boot-record parser over a disk image. -/
def parseBootRecord (d : Disk) : Parse16 :=
  match readU16 d 11, readByte d 13, readU16 d 14, readByte d 16,
        readU16 d 17, readU16 d 19, readByte d 21, readU16 d 22,
        readU64 d 24, readU32 d 32, readByte d 36, readByte d 37,
        readByte d 38, readU32 d 39, readBytes d 43 11 with
  | some ss, some cs, some rs, some fc, some re, some sc, some _media,
    some fs, some _geom, some lsc, some _drive, some fl, some sig,
    some _serial, some lbl =>
    if sig = 0x28 ∨ sig = 0x29 then
      .ok ⟨ss, cs, rs, fc, re, sc, fs, lsc, fl, lbl⟩
    else .panic
  | _, _, _, _, _, _, _, _, _, _, _, _, _, _, _ => .ioError

/-! ## FAT32 variant: fat32.rs -/

/-- The fixed sector size of fat32.rs (const SECTOR_SIZE). -/
def SECTOR_SIZE : Nat := 0x200

/-- The FAT32 volume structure of fat32.rs (fields kept after
parsing the boot record). -/
structure FAT32 where
  reserved_sectors : Nat
  sector_count : Nat
  fat_size : Nat
  root_dir : Nat
  label : List Nat
deriving DecidableEq

/-- DirectoryEntry of fat32.rs: combined 11-byte name, attribute
flags, cluster number (decoded from the low 16-bit field only, see the
TODO in the source), 32-bit size. -/
structure Entry32 where
  name : List Nat
  flags : Nat
  cluster : Nat
  size : Nat
deriving DecidableEq

/-- Outcome of a fat32.rs read_directory call; panic marks the
assert of cluster_start firing on a cluster below 2. -/
inductive Rd32 where
  | ok (entries : List Entry32)
  | ioError
  | panic
  | outOfFuel
deriving DecidableEq

/-- FAT32::new of fat32.rs: reads at fixed offsets; asserts sector
size 0x200, cluster size 1 and FAT count 1; never reads the
extended-boot-record signature byte. -/
inductive Parse32 where
  | ok (g : FAT32)
  | ioError
  | panic
deriving DecidableEq

/-- The fat32.rs volume opener over a disk image. -/
def fat32New (d : Disk) : Parse32 :=
  match readU16 d 11 with
  | none => .ioError
  | some ss =>
    if ss ≠ SECTOR_SIZE then .panic
    else
      match readByte d 13 with
      | none => .ioError
      | some cs =>
        if cs ≠ 1 then .panic
        else
          match readU16 d 14 with
          | none => .ioError
          | some rs =>
            match readByte d 16 with
            | none => .ioError
            | some fc =>
              if fc ≠ 1 then .panic
              else
                match readU32 d 32, readU32 d 36, readU16 d 40,
                      readU16 d 42, readU32 d 44, readBytes d 71 11 with
                | some sc, some fs, some _fl, some _ver, some rd, some lbl =>
                  .ok ⟨rs, sc, fs, rd, lbl⟩
                | _, _, _, _, _, _ => .ioError

/-- FAT32::sector_count: always the 32-bit field. -/
def sectorCount32 (g : FAT32) : Nat := g.sector_count

/-- FAT32::fat_start_sector. -/
def fatStartSector32 (g : FAT32) : Nat := g.reserved_sectors

/-- FAT32::data_start_sector (u32 addition wraps). -/
def dataStartSector32 (g : FAT32) : Nat :=
  (fatStartSector32 g + g.fat_size) % 4294967296

/-- FAT32::cluster_start without its assert (the assert cluster >= 2
is modelled at the call site in the directory loop). -/
def clusterStart32 (g : FAT32) (cluster : Nat) : Nat :=
  (dataStartSector32 g + (cluster - 2)) % 4294967296

/-- FAT32::fat_lookup: 32-bit FAT entry of a cluster, read at
fat_start_sector * SECTOR_SIZE + 4 * cluster (u32 arithmetic). -/
def fatLookup32 (d : Disk) (g : FAT32) (cluster : Nat) : Option Nat :=
  readU32 d ((fatStartSector32 g * SECTOR_SIZE + cluster * 4) % 4294967296)

/-- Outcome of scanning the per-cluster record budget of the fat32.rs
inner for loop: budget exhausted (done), 0x00 terminator hit (term),
or a failed read. -/
inductive Scan32 where
  | done (entries : List Entry32)
  | term (entries : List Entry32)
  | ioError

/-- The inner for loop of FAT32::read_directory: decode up to k
records from the given byte position; an 11-byte name read, the 0x00
terminator check, the attribute byte, a 14-byte skip, the low 16-bit
cluster field and the 32-bit size; attribute 0xf records are not
pushed. -/
def scan32 (d : Disk) : Nat → Nat → List Entry32 → Scan32
  | 0, _, es => .done es
  | k+1, pos, es =>
    match readBytes d pos 11 with
    | none => .ioError
    | some nm =>
      if nm.headD 1 = 0 then .term es
      else
        match readByte d (pos + 11), readU16 d (pos + 26), readU32 d (pos + 28) with
        | some fl, some cl, some sz =>
          scan32 d k (pos + 32) (if fl = 0xf then es else ⟨nm, fl, cl, sz⟩ :: es)
        | _, _, _ => .ioError

/-- The outer while loop of FAT32::read_directory, with fuel: while
the current cluster is below 0xfffff0, seek to its first sector
(cluster_start asserts cluster >= 2), scan one cluster's worth of
records (SECTOR_SIZE / 32 = 16 of them), and on budget exhaustion look
up the next cluster in the FAT. -/
def loop32 (d : Disk) (g : FAT32) : Nat → Nat → List Entry32 → Rd32
  | 0, _, _ => .outOfFuel
  | fuel+1, cluster, es =>
    if cluster < 0xfffff0 then
      if cluster < 2 then .panic
      else
        match scan32 d (SECTOR_SIZE >>> 5) ((clusterStart32 g cluster * SECTOR_SIZE) % 4294967296) es with
        | .ioError => .ioError
        | .term es2 => .ok es2.reverse
        | .done es2 =>
          match fatLookup32 d g cluster with
          | none => .ioError
          | some c2 => loop32 d g fuel c2 es2
    else .ok es.reverse

/-- FAT32::read_directory of fat32.rs, starting from a directory's
first cluster. -/
def readDirectory32 (d : Disk) (g : FAT32) (fuel : Nat) (cluster : Nat) : Rd32 :=
  loop32 d g fuel cluster []

/-- FAT32::root_directory: the root directory's first cluster from
the boot record. -/
def rootDirectory32 (g : FAT32) : Nat := g.root_dir

/-! ## String accessors: str::from_utf8(..).unwrap().trim_end()

The accessors return the decoded code points on valid UTF-8 input and
none where the Rust unwrap would panic. -/

/-- Strict UTF-8 decoding of a byte list to its code points, mirroring
the validation done by str::from_utf8: continuation bytes in
0x80..0xbf, no overlong encodings (0xc0/0xc1 rejected, 0xe0 requires
0xa0.., 0xf0 requires 0x90..), no surrogates (0xed caps at 0x9f), and
a 0x10ffff ceiling (0xf4 caps at 0x8f, 0xf5.. rejected). -/
def utf8Decode : List Nat → Option (List Nat)
  | [] => some []
  | b :: rest =>
    if b < 0x80 then (utf8Decode rest).map (fun cs => b :: cs)
    else if 0xc2 ≤ b ∧ b ≤ 0xdf then
      match rest with
      | c1 :: r =>
        if 0x80 ≤ c1 ∧ c1 ≤ 0xbf then
          (utf8Decode r).map (fun cs => ((b - 0xc0) * 0x40 + (c1 - 0x80)) :: cs)
        else none
      | [] => none
    else if 0xe0 ≤ b ∧ b ≤ 0xef then
      match rest with
      | c1 :: c2 :: r =>
        if ((b = 0xe0 ∧ 0xa0 ≤ c1 ∧ c1 ≤ 0xbf) ∨
            (0xe1 ≤ b ∧ b ≤ 0xec ∧ 0x80 ≤ c1 ∧ c1 ≤ 0xbf) ∨
            (b = 0xed ∧ 0x80 ≤ c1 ∧ c1 ≤ 0x9f) ∨
            (0xee ≤ b ∧ 0x80 ≤ c1 ∧ c1 ≤ 0xbf)) ∧
           (0x80 ≤ c2 ∧ c2 ≤ 0xbf) then
          (utf8Decode r).map
            (fun cs => ((b - 0xe0) * 0x1000 + (c1 - 0x80) * 0x40 + (c2 - 0x80)) :: cs)
        else none
      | _ => none
    else if 0xf0 ≤ b ∧ b ≤ 0xf4 then
      match rest with
      | c1 :: c2 :: c3 :: r =>
        if ((b = 0xf0 ∧ 0x90 ≤ c1 ∧ c1 ≤ 0xbf) ∨
            (0xf1 ≤ b ∧ b ≤ 0xf3 ∧ 0x80 ≤ c1 ∧ c1 ≤ 0xbf) ∨
            (b = 0xf4 ∧ 0x80 ≤ c1 ∧ c1 ≤ 0x8f)) ∧
           (0x80 ≤ c2 ∧ c2 ≤ 0xbf) ∧ (0x80 ≤ c3 ∧ c3 ≤ 0xbf) then
          (utf8Decode r).map
            (fun cs => ((b - 0xf0) * 0x40000 + (c1 - 0x80) * 0x1000 +
                        (c2 - 0x80) * 0x40 + (c3 - 0x80)) :: cs)
        else none
      | _ => none
    else none

/-- The Rust char::is_whitespace set (Unicode White_Space). -/
def isRustWhitespace (c : Nat) : Bool :=
  (0x9 ≤ c && c ≤ 0xd) || c = 0x20 || c = 0x85 || c = 0xa0 || c = 0x1680 ||
  (0x2000 ≤ c && c ≤ 0x200a) || c = 0x2028 || c = 0x2029 || c = 0x202f ||
  c = 0x205f || c = 0x3000

/-- str::trim_end over code points: drop trailing whitespace. -/
def rustTrimEnd (cs : List Nat) : List Nat :=
  (cs.reverse.dropWhile isRustWhitespace).reverse

/-- FileSystem::volume_name of fat.rs: UTF-8 decode the label, unwrap
(none models the panic), trim trailing whitespace. -/
def volumeName (br : BootRecord) : Option (List Nat) :=
  (utf8Decode br.label).map rustTrimEnd

/-- DirectoryEntry::name of fat.rs. -/
def entryName16 (e : Entry16) : Option (List Nat) :=
  (utf8Decode e.name).map rustTrimEnd

/-- DirectoryEntry::extension of fat.rs. -/
def entryExt16 (e : Entry16) : Option (List Nat) :=
  (utf8Decode e.ext).map rustTrimEnd

/-- FAT32::volume_name of fat32.rs. -/
def volumeName32 (g : FAT32) : Option (List Nat) :=
  (utf8Decode g.label).map rustTrimEnd

/-- DirectoryEntry::name of fat32.rs: the first 8 bytes of the
combined name field. -/
def entryName32 (e : Entry32) : Option (List Nat) :=
  (utf8Decode (e.name.take 8)).map rustTrimEnd

/-- DirectoryEntry::extension of fat32.rs: the bytes of the combined
name field from index 8 on. -/
def entryExt32 (e : Entry32) : Option (List Nat) :=
  (utf8Decode (e.name.drop 8)).map rustTrimEnd

/-! ## Concrete disk images for counterexamples and witnesses -/

/-- Byte j of a synthetic populated 32-byte directory record: first
name byte 0x41, the rest of the name and the attribute byte 0x20, the
size's low byte set to a tag distinguishing the record, all other
bytes 0. -/
def recByte (tag : Nat) (j : Nat) : Nat :=
  if j = 0 then 0x41 else if j < 12 then 0x20 else if j = 28 then tag else 0

/-- The FAT16 geometry of the synthetic chain images: 64-byte sectors,
1 sector per cluster (so 2 records per cluster), 1 reserved sector,
1 FAT of 1 sector, no root entries. -/
def chainBr : BootRecord :=
  ⟨64, 1, 1, 1, 0, 16, 1, 0, 0, List.replicate 11 0x20⟩

/-- FAT16 image with directory chain 5 -> 8 -> 0xffff (end marker):
FAT entries at bytes 74 (cluster 5 -> 8) and 80 (cluster 8 -> 0xffff),
fully populated clusters 5 (bytes 320..383, tags 0 and 1) and 8
(bytes 512..575, tags 2 and 3), and 0x41 garbage bytes at the sector
that cluster_start maps the 0xffff end marker to (bytes 4194240..). -/
def exChainDisk : Disk := fun i =>
  if i = 74 then some 8
  else if i = 80 then some 0xff
  else if i = 81 then some 0xff
  else if 64 ≤ i ∧ i < 128 then some 0
  else if 320 ≤ i ∧ i < 384 then some (recByte ((i - 320) / 32) ((i - 320) % 32))
  else if 512 ≤ i ∧ i < 576 then some (recByte (2 + (i - 512) / 32) ((i - 512) % 32))
  else if 4194240 ≤ i ∧ i < 4194304 then some 0x41
  else none

/-- The FAT16 entry a populated synthetic record decodes to. -/
def mkE16 (tag : Nat) : Entry16 :=
  ⟨0x41 :: List.replicate 7 0x20, List.replicate 3 0x20, 0x20, 0, tag⟩

/-- The entry decoded from the garbage region of exChainDisk. -/
def garbageE16 : Entry16 :=
  ⟨List.replicate 8 0x41, List.replicate 3 0x41, 0x41, 0x4141, 0x41414141⟩

/-- The FAT32 geometry of the synthetic images: 1 reserved sector,
1 FAT sector, root at cluster 5, 64 sectors in total. -/
def chainG32 : FAT32 :=
  ⟨1, 64, 1, 5, List.replicate 11 0x20⟩

/-- FAT32 image with directory chain 5 -> 8 -> 0x0ffffff8 (end
marker): FAT entries at bytes 532 and 544, fully populated clusters 5
(bytes 2560..3071, tags 0..15) and 8 (bytes 4096..4607, tags
16..31). -/
def exChain32Disk : Disk := fun i =>
  if i = 532 then some 8
  else if i = 544 then some 0xf8
  else if i = 545 then some 0xff
  else if i = 546 then some 0xff
  else if i = 547 then some 0x0f
  else if 512 ≤ i ∧ i < 1024 then some 0
  else if 2560 ≤ i ∧ i < 3072 then some (recByte ((i - 2560) / 32) ((i - 2560) % 32))
  else if 4096 ≤ i ∧ i < 4608 then some (recByte (16 + (i - 4096) / 32) ((i - 4096) % 32))
  else none

/-- The FAT32 entry a populated synthetic record decodes to. -/
def mkE32 (tag : Nat) : Entry32 :=
  ⟨0x41 :: List.replicate 10 0x20, 0x20, 0, tag⟩

/-- The FAT16 geometry of the cyclic-chain image: 32-byte sectors, so
exactly 1 record per cluster. -/
def cycleBr : BootRecord :=
  ⟨32, 1, 1, 1, 0, 16, 1, 0, 0, List.replicate 11 0x20⟩

/-- FAT16 image whose FAT entry for cluster 5 points back to cluster
5 (a one-cluster cycle), with cluster 5 (bytes 160..191) holding one
populated record and no terminator. -/
def exCycleDisk : Disk := fun i =>
  if i = 42 then some 5
  else if 32 ≤ i ∧ i < 64 then some 0
  else if 160 ≤ i ∧ i < 192 then
    some (if i = 160 then 0x42 else if i < 172 then 0x20 else 0)
  else none

/-- The single record of exCycleDisk. -/
def cycleE : Entry16 :=
  ⟨0x42 :: List.replicate 7 0x20, List.replicate 3 0x20, 0x20, 0, 0⟩

/-- FAT32 image whose FAT entry for cluster 5 is 0 (free marker) and
whose cluster 5 (bytes 2560..3071) is fully populated, so the reader
exhausts the cluster and looks the free marker up. -/
def exFree32Disk : Disk := fun i =>
  if 512 ≤ i ∧ i < 1024 then some 0
  else if 2560 ≤ i ∧ i < 3072 then some (recByte ((i - 2560) / 32) ((i - 2560) % 32))
  else none

/-- The FAT16 geometry of the fixed-root images: 512-byte sectors,
16 root entries starting at sector 2 (byte 1024). -/
def rootBr : BootRecord :=
  ⟨512, 1, 1, 1, 16, 64, 1, 0, 0, List.replicate 11 0x20⟩

/-- FAT16 image whose fixed root region holds a FILE1.TXT record, a
SUBDIR record, and then a terminator record (first name byte 0). -/
def exRootDisk : Disk := fun i =>
  if 1024 ≤ i ∧ i < 1056 then
    some (([0x46, 0x49, 0x4c, 0x45, 0x31, 0x20, 0x20, 0x20,
            0x54, 0x58, 0x54, 0x20].getD (i - 1024) (if i - 1024 = 28 then 100 else 0)))
  else if 1056 ≤ i ∧ i < 1088 then
    some (([0x53, 0x55, 0x42, 0x44, 0x49, 0x52, 0x20, 0x20,
            0x20, 0x20, 0x20, 0x10].getD (i - 1056) 0))
  else if 1088 ≤ i ∧ i < 1120 then some 0
  else none

/-- The FILE1.TXT entry of exRootDisk. -/
def fileE : Entry16 :=
  ⟨[0x46, 0x49, 0x4c, 0x45, 0x31, 0x20, 0x20, 0x20], [0x54, 0x58, 0x54], 0x20, 0, 100⟩

/-- The SUBDIR entry of exRootDisk. -/
def subdirE : Entry16 :=
  ⟨[0x53, 0x55, 0x42, 0x44, 0x49, 0x52, 0x20, 0x20], List.replicate 3 0x20, 0x10, 0, 0⟩

/-- FAT16 image whose fixed root region holds a populated record, a
long-filename record (attribute 0x0f), a second populated record, and
a terminator. -/
def exLfn16Disk : Disk := fun i =>
  if 1024 ≤ i ∧ i < 1056 then some (recByte 0 (i - 1024))
  else if 1056 ≤ i ∧ i < 1088 then
    some (if i - 1056 = 11 then 0xf else if i - 1056 < 11 then 0x42 else 0)
  else if 1088 ≤ i ∧ i < 1120 then some (recByte 1 (i - 1088))
  else if 1120 ≤ i ∧ i < 1152 then some 0
  else none

/-- FAT16 image holding just a boot record (bytes 11..53 readable, all
zero except the signature byte 0x29 at offset 38), enough for
BootRecord::parse to succeed. -/
def exGood16Disk : Disk := fun i =>
  if 11 ≤ i ∧ i ≤ 53 then some (if i = 38 then 0x29 else 0)
  else none

/-- FAT32 image whose boot record passes every check of FAT32::new
(sector size 0x200, cluster size 1, FAT count 1) while both the FAT16
signature offset 38 and the FAT32 signature offset 66 hold 0x00, a
value that is neither 0x28 nor 0x29. -/
def exNoSig32Disk : Disk := fun i =>
  if i = 12 then some 2
  else if i = 13 then some 1
  else if i = 14 then some 1
  else if i = 16 then some 1
  else if i = 32 then some 64
  else if i = 36 then some 1
  else if i = 44 then some 5
  else if 71 ≤ i ∧ i ≤ 81 then some 0x41
  else if i ≤ 100 then some 0
  else none

/-- FAT32 image whose cluster 5 holds one record whose high 16-bit
cluster field (record bytes 20..21) is 0x1234 while its low 16-bit
cluster field (record bytes 26..27) is 0, followed by a terminator
record. -/
def exHi32Disk : Disk := fun i =>
  if 2560 ≤ i ∧ i < 2572 then some (if i = 2560 then 0x41 else 0x20)
  else if i = 2580 then some 0x34
  else if i = 2581 then some 0x12
  else if i = 2588 then some 7
  else if 2572 ≤ i ∧ i < 2592 then some 0
  else if 2592 ≤ i ∧ i < 2624 then some 0
  else none

/-! ## Helper lemmas -/

/-- On the cyclic image the directory loop is stuck in the fixed
state: cluster 5, budget exhausted, position past the one record of
the cluster.  Each loop iteration re-reads the single record and
returns to the same state with one more entry accumulated, so every
fuel is exhausted. -/
theorem loop16_cycle (fuel : Nat) :
    ∀ es, loop16 exCycleDisk cycleBr false 1 fuel 5 1 192 es = .outOfFuel := by
  induction fuel with
  | zero => intro es; rfl
  | succ f ih => intro es; exact ih (cycleE :: es)

/-- A record decode that finishes the loop does so with either the
collected entries (terminator) or an IO error. -/
theorem decode16_fin_cases (d : Disk) (pos cnt : Nat) (es : List Entry16) (r : Rd16)
    (h : decode16 d pos cnt es = .fin r) : r = .ok es.reverse ∨ r = .ioError := by
  unfold decode16 at h
  split at h
  · split at h
    · exact Or.inl (Step16.fin.inj h).symm
    · split at h
      · exact Step16.noConfusion h
      · exact Or.inr (Step16.fin.inj h).symm
  · exact Or.inr (Step16.fin.inj h).symm

/-- A record decode preserves the all-entries-satisfy-P invariant for
any predicate that holds of every pushed entry's flags; specialised to
flags different from 0xf, since 0xf records are never pushed. -/
theorem decode16_next_flags (d : Disk) (pos cnt : Nat) (es : List Entry16)
    (cnt2 pos2 : Nat) (es2 : List Entry16)
    (h : decode16 d pos cnt es = .next cnt2 pos2 es2)
    (hes : ∀ e ∈ es, e.flags ≠ 0xf) : ∀ e ∈ es2, e.flags ≠ 0xf := by
  unfold decode16 at h
  split at h
  · split at h
    · exact Step16.noConfusion h
    · split at h
      · rename_i nm ex _ _ fl fc sz _ _ _
        obtain ⟨-, -, hes2⟩ := Step16.next.inj h
        subst hes2
        by_cases hf : fl = 0xf
        · simpa [hf] using hes
        · intro e he
          rw [if_neg hf] at he
          rcases List.mem_cons.mp he with rfl | hmem
          · exact hf
          · exact hes e hmem
      · exact Step16.noConfusion h
  · exact Step16.noConfusion h

/-- Every entry returned by the fat.rs directory loop has an attribute
byte different from the 0xf long-filename marker, provided the
accumulator already satisfies that. -/
theorem loop16_flags (d : Disk) (br : BootRecord) (ir : Bool) (ec : Nat) :
    ∀ fuel cluster cnt pos es res,
      (∀ e ∈ es, e.flags ≠ 0xf) →
      loop16 d br ir ec fuel cluster cnt pos es = .ok res →
      ∀ e ∈ res, e.flags ≠ 0xf := by
  intro fuel
  induction fuel with
  | zero =>
    intro cluster cnt pos es res _ h
    exact absurd h (by simp [loop16])
  | succ f ih =>
    intro cluster cnt pos es res hes h
    rw [loop16] at h
    split at h
    · split at h
      · obtain rfl := (Rd16.ok.inj h).symm
        intro e he
        exact hes e (List.mem_reverse.mp he)
      · split at h
        · obtain rfl := (Rd16.ok.inj h).symm
          intro e he
          exact hes e (List.mem_reverse.mp he)
        · split at h
          · exact Rd16.noConfusion h
          · split at h
            · obtain rfl := (Rd16.ok.inj h).symm
              intro e he
              exact hes e (List.mem_reverse.mp he)
            · rename_i c2 _ _
              split at h
              · rename_i r hdec
                rcases decode16_fin_cases _ _ _ _ _ hdec with rfl | rfl
                · obtain rfl := (Rd16.ok.inj h).symm
                  intro e he
                  exact hes e (List.mem_reverse.mp he)
                · exact Rd16.noConfusion h
              · rename_i cnt2 pos2 es2 hdec
                exact ih c2 cnt2 pos2 es2 res
                  (decode16_next_flags _ _ _ _ _ _ _ hdec hes) h
    · split at h
      · rename_i r hdec
        rcases decode16_fin_cases _ _ _ _ _ hdec with rfl | rfl
        · obtain rfl := (Rd16.ok.inj h).symm
          intro e he
          exact hes e (List.mem_reverse.mp he)
        · exact Rd16.noConfusion h
      · rename_i cnt2 pos2 es2 hdec
        exact ih cluster cnt2 pos2 es2 res
          (decode16_next_flags _ _ _ _ _ _ _ hdec hes) h

/-- The fat32.rs per-cluster scan preserves the no-0xf-flags
invariant, in both its budget-exhausted and terminator outcomes. -/
theorem scan32_flags (d : Disk) :
    ∀ k pos es es2, (∀ e ∈ es, e.flags ≠ 0xf) →
      (scan32 d k pos es = .done es2 ∨ scan32 d k pos es = .term es2) →
      ∀ e ∈ es2, e.flags ≠ 0xf := by
  intro k
  induction k with
  | zero =>
    intro pos es es2 hes h
    rcases h with h | h
    · obtain rfl := (Scan32.done.inj h).symm
      exact hes
    · exact Scan32.noConfusion h
  | succ n ih =>
    intro pos es es2 hes h
    rcases h with h | h <;> rw [scan32] at h <;> split at h
    · exact Scan32.noConfusion h
    · split at h
      · exact Scan32.noConfusion h
      · split at h
        · rename_i nm _ fl cl sz _ _ _
          refine ih (pos + 32) _ es2 ?_ (Or.inl h)
          by_cases hf : fl = 0xf
          · simpa [hf] using hes
          · intro e he
            rw [if_neg hf] at he
            rcases List.mem_cons.mp he with rfl | hmem
            · exact hf
            · exact hes e hmem
        · exact Scan32.noConfusion h
    · exact Scan32.noConfusion h
    · split at h
      · obtain rfl := (Scan32.term.inj h).symm
        exact hes
      · split at h
        · rename_i nm _ fl cl sz _ _ _
          refine ih (pos + 32) _ es2 ?_ (Or.inr h)
          by_cases hf : fl = 0xf
          · simpa [hf] using hes
          · intro e he
            rw [if_neg hf] at he
            rcases List.mem_cons.mp he with rfl | hmem
            · exact hf
            · exact hes e hmem
        · exact Scan32.noConfusion h

/-- Every entry returned by the fat32.rs cluster-chain loop has an
attribute byte different from 0xf, provided the accumulator does. -/
theorem loop32_flags (d : Disk) (g : FAT32) :
    ∀ fuel cluster es res,
      (∀ e ∈ es, e.flags ≠ 0xf) →
      loop32 d g fuel cluster es = .ok res →
      ∀ e ∈ res, e.flags ≠ 0xf := by
  intro fuel
  induction fuel with
  | zero =>
    intro cluster es res _ h
    exact absurd h (by simp [loop32])
  | succ f ih =>
    intro cluster es res hes h
    rw [loop32] at h
    split at h
    · split at h
      · exact Rd32.noConfusion h
      · split at h
        · exact Rd32.noConfusion h
        · rename_i es2 hscan
          obtain rfl := (Rd32.ok.inj h).symm
          intro e he
          exact scan32_flags d _ _ es es2 hes (Or.inr hscan) e (List.mem_reverse.mp he)
        · rename_i es2 hscan
          split at h
          · exact Rd32.noConfusion h
          · rename_i c2 _
            exact ih c2 es2 res (scan32_flags d _ _ es es2 hes (Or.inl hscan)) h
    · obtain rfl := (Rd32.ok.inj h).symm
      intro e he
      exact hes e (List.mem_reverse.mp he)

/-- A successful fat.rs boot-record parse pins down the bytes the
returned fields came from: the signature byte at offset 38 is one of
the two accepted values, the 16-bit sector count comes from offset 19
and the 32-bit large sector count from offset 32. -/
theorem parseBootRecord_ok (d : Disk) (br : BootRecord)
    (h : parseBootRecord d = .ok br) :
    (readByte d 38 = some 0x28 ∨ readByte d 38 = some 0x29) ∧
    readU16 d 19 = some br.sector_count ∧
    readU32 d 32 = some br.large_sector_count := by
  unfold parseBootRecord at h
  split at h
  · split at h
    · rename_i hsig
      obtain rfl := (Parse16.ok.inj h).symm
      rename_i h38 _ _
      refine ⟨?_, by assumption, by assumption⟩
      rcases hsig with rfl | rfl
      · exact Or.inl h38
      · exact Or.inr h38
    · exact Parse16.noConfusion h
  · exact Parse16.noConfusion h

/-- A successful fat32.rs volume open pins the 32-bit sector count to
the u32 field at offset 32. -/
theorem fat32New_ok (d : Disk) (g : FAT32) (h : fat32New d = .ok g) :
    readU32 d 32 = some g.sector_count := by
  unfold fat32New at h
  split at h
  · exact Parse32.noConfusion h
  · split at h
    · exact Parse32.noConfusion h
    · split at h
      · exact Parse32.noConfusion h
      · split at h
        · exact Parse32.noConfusion h
        · split at h
          · exact Parse32.noConfusion h
          · split at h
            · exact Parse32.noConfusion h
            · split at h
              · exact Parse32.noConfusion h
              · split at h
                · rename_i h32 _ _ _ _ _
                  obtain rfl := (Parse32.ok.inj h).symm
                  exact h32
                · exact Parse32.noConfusion h

/-! ## Claims -/

/-- C1, counterexample: on the 16-bit variant the claim fails.  On a
2-cluster chain 5 -> 8 -> 0xffff whose clusters are fully populated,
the FAT lookup at the end of cluster 8 returns the end-of-chain marker
0xffff, yet the reader does not stop: it seeks to the sector computed
from the marker value and decodes one further cluster's worth of
garbage records before the marker is finally noticed, so the result is
not the concatenation of the two clusters' entries. -/
theorem c1_counterexample :
    fatLookup exChainDisk chainBr 8 = some 0xffff ∧
    readDirectory16 exChainDisk chainBr 10 (.Regular 5) ≠
      .ok [mkE16 0, mkE16 1, mkE16 2, mkE16 3] ∧
    readDirectory16 exChainDisk chainBr 10 (.Regular 5) =
      .ok [mkE16 0, mkE16 1, mkE16 2, mkE16 3, garbageE16, garbageE16] := by
  refine ⟨rfl, by decide, by decide⟩

/-- C1, amended: the 32-bit variant checks the looked-up cluster at
the head of its loop and stops on any value at or above 0xfffff0
(without masking the high 4 bits), so a synthetic 2-cluster chain
(cluster 5 -> cluster 8 -> end marker 0x0ffffff8) fully populated with
directory entries yields exactly the concatenation of both clusters'
entries in cluster-then-in-cluster order; the 16-bit variant stops
immediately only on a looked-up value below 2, and detects its
end-of-chain threshold one cluster late, as the counterexample
shows. -/
theorem c1_amended_chain_concatenation :
    fatLookup32 exChain32Disk chainG32 5 = some 8 ∧
    fatLookup32 exChain32Disk chainG32 8 = some 0x0ffffff8 ∧
    readDirectory32 exChain32Disk chainG32 4 5 =
      .ok ((List.range 32).map mkE32) := by
  refine ⟨rfl, rfl, by decide⟩

/-- C2: the code is wrong and the claim describes the intended
behaviour.  The fat32.rs decoder (see its TODO comment) skips the
high 16-bit cluster field at record bytes 20..21 and decodes the
cluster number from the low 16-bit field alone: on a record whose
high field is 0x1234 and whose low field is 0, the returned entry's
cluster number is 0 rather than the combined 0x12340000. -/
theorem c2_high_cluster_field_ignored :
    readU16 exHi32Disk (2560 + 20) = some 0x1234 ∧
    readU16 exHi32Disk (2560 + 26) = some 0 ∧
    readDirectory32 exHi32Disk chainG32 2 5 =
      .ok [⟨0x41 :: List.replicate 10 0x20, 0x20, 0, 7⟩] := by
  refine ⟨rfl, rfl, by decide⟩

/-- C3: the code is wrong and the claim describes the required fix.
No chain-length bound exists: on an image whose FAT entry for cluster
5 points back to cluster 5, reading the directory starting at cluster
5 runs the loop forever - for every fuel the bounded model is still
running, and no ChainTooLong-style failure is ever produced. -/
theorem c3_cycle_never_terminates :
    fatLookup exCycleDisk cycleBr 5 = some 5 ∧
    ∀ fuel, readDirectory16 exCycleDisk cycleBr fuel (.Regular 5) = .outOfFuel := by
  refine ⟨rfl, fun fuel => ?_⟩
  match fuel with
  | 0 => rfl
  | f + 1 => exact loop16_cycle f [cycleE]

/-- C4, counterexample: the 32-bit variant never validates any
signature byte.  On an image whose bytes at the 16-bit-layout
signature offset 38 and the 32-bit-layout signature offset 66 are
both 0x00 (neither 0x28 nor 0x29), FAT32::new still succeeds and
returns a volume. -/
theorem c4_counterexample :
    readByte exNoSig32Disk 38 = some 0 ∧
    readByte exNoSig32Disk 66 = some 0 ∧
    fat32New exNoSig32Disk = .ok ⟨1, 64, 1, 5, List.replicate 11 0x41⟩ := by
  refine ⟨rfl, rfl, by decide⟩

/-- C4, amended: only the 16-bit variant validates the
extended-boot-record signature byte (offset 38) against 0x28 and
0x29, via an assertion whose failure aborts the parse with no boot
record returned; any successfully parsed volume therefore has one of
the two accepted signature bytes, and a mismatching signature byte
can never yield a parsed boot record. -/
theorem c4_amended_signature_check :
    (∀ (d : Disk) (br : BootRecord), parseBootRecord d = .ok br →
        readByte d 38 = some 0x28 ∨ readByte d 38 = some 0x29) ∧
    (∀ (d : Disk) (b : Nat), readByte d 38 = some b → b ≠ 0x28 → b ≠ 0x29 →
        ∀ br : BootRecord, parseBootRecord d ≠ .ok br) := by
  constructor
  · intro d br h
    exact (parseBootRecord_ok d br h).1
  · intro d b hb h28 h29 br h
    rcases (parseBootRecord_ok d br h).1 with h38 | h38 <;> rw [hb] at h38
    · exact h28 (Option.some.inj h38)
    · exact h29 (Option.some.inj h38)

/-- C4, witness: a concrete image with signature byte 0x29 parses
successfully, and the amended theorem applied to it certifies its
signature byte. -/
theorem c4_amended_signature_check_witness :
    readByte exGood16Disk 38 = some 0x28 ∨ readByte exGood16Disk 38 = some 0x29 :=
  c4_amended_signature_check.1 exGood16Disk
    ⟨0, 0, 0, 0, 0, 0, 0, 0, 0, List.replicate 11 0⟩ (by decide)

/-- C5, counterexample: in the 32-bit variant a FAT lookup returning
0 for a directory's first cluster does not yield an empty listing: no
lookup guards the first cluster, its contents are decoded, and when
the budget-exhausted lookup then returns 0 the next iteration trips
the cluster_start assertion, a panic rather than a success. -/
theorem c5_counterexample :
    fatLookup32 exFree32Disk chainG32 5 = some 0 ∧
    readDirectory32 exFree32Disk chainG32 3 5 = .panic ∧
    readDirectory32 exFree32Disk chainG32 3 5 ≠ .ok [] := by
  refine ⟨rfl, by decide, by decide⟩

/-- C5, amended: in the 16-bit variant, for every subdirectory whose
first cluster's FAT entry is below 2, read_directory returns an empty
entry list as a success, for any image, geometry and fuel. -/
theorem c5_amended_free_marker_empty :
    ∀ (d : Disk) (br : BootRecord) (fuel start v : Nat),
      fatLookup d br start = some v → v < 2 →
      readDirectory16 d br fuel (.Regular start) = .ok [] := by
  intro d br fuel start v hl hv
  simp only [readDirectory16, hl, if_pos hv]

/-- C5, witness: on the chain image the FAT entry of cluster 4 is 0,
and reading a directory rooted there yields the empty listing. -/
theorem c5_amended_free_marker_empty_witness :
    readDirectory16 exChainDisk chainBr 5 (.Regular 4) = .ok [] :=
  c5_amended_free_marker_empty exChainDisk chainBr 5 4 0 rfl (by decide)

/-- C6: the 16-bit variant reports the legacy 16-bit sector-count
field whenever it is non-zero and the 32-bit large-sector-count field
exactly when it is zero; both fields come from their fixed boot-sector
offsets (19 and 32); the 32-bit variant always reports the u32 field
it parsed from offset 32. -/
theorem c6_total_sector_count :
    (∀ br : BootRecord, br.sector_count ≠ 0 → sectorsCount br = br.sector_count) ∧
    (∀ br : BootRecord, br.sector_count = 0 → sectorsCount br = br.large_sector_count) ∧
    (∀ (d : Disk) (br : BootRecord), parseBootRecord d = .ok br →
        readU16 d 19 = some br.sector_count ∧
        readU32 d 32 = some br.large_sector_count) ∧
    (∀ (d : Disk) (g : FAT32), fat32New d = .ok g →
        readU32 d 32 = some (sectorCount32 g)) := by
  refine ⟨?_, ?_, ?_, ?_⟩
  · intro br h
    simp [sectorsCount, h]
  · intro br h
    simp [sectorsCount, h]
  · intro d br h
    exact (parseBootRecord_ok d br h).2
  · intro d g h
    exact fat32New_ok d g h

/-- C6, witness: concrete boot records exercising both branches, and
the concrete no-signature image's parsed sector count. -/
theorem c6_total_sector_count_witness :
    sectorsCount ⟨512, 1, 1, 1, 0, 5, 1, 777, 0, []⟩ = 5 ∧
    sectorsCount ⟨512, 1, 1, 1, 0, 0, 1, 777, 0, []⟩ = 777 ∧
    readU32 exNoSig32Disk 32 = some (sectorCount32 ⟨1, 64, 1, 5, List.replicate 11 0x41⟩) :=
  ⟨c6_total_sector_count.1 _ (by decide),
   c6_total_sector_count.2.1 _ rfl,
   c6_total_sector_count.2.2.2 exNoSig32Disk _ (by decide)⟩

/-- C7: in both variants cluster_to_sector(2) equals the data start
sector exactly, and under the precondition cluster at least 2 (and, in
32-bit u32 arithmetic, no overflow) the general affine formula
data_start + (cluster - 2) * cluster_size holds; the 32-bit variant
has cluster size fixed at 1 sector. -/
theorem c7_cluster_to_sector :
    ∀ (br : BootRecord) (g : FAT32) (c c32 : Nat),
      2 ≤ c → c ≤ 0xffff → 2 ≤ c32 →
      dataStartSector32 g + (c32 - 2) < 4294967296 →
      clusterStart br 2 = dataStartSector br ∧
      clusterStart br c = dataStartSector br + (c - 2) * br.cluster_size ∧
      clusterStart32 g 2 = dataStartSector32 g ∧
      clusterStart32 g c32 = dataStartSector32 g + (c32 - 2) := by
  intro br g c c32 h2 hle h232 hlt
  have hds : dataStartSector32 g < 4294967296 := by
    unfold dataStartSector32
    exact Nat.mod_lt _ (by norm_num)
  refine ⟨?_, ?_, ?_, ?_⟩
  · simp [clusterStart]
  · have hm : (c + 65534) % 65536 = c - 2 := by omega
    simp [clusterStart, hm]
  · simp [clusterStart32, Nat.mod_eq_of_lt hds]
  · simp [clusterStart32, Nat.mod_eq_of_lt hlt]

/-- C7, witness: the identities at the concrete geometries of the
synthetic images. -/
theorem c7_cluster_to_sector_witness :
    clusterStart chainBr 2 = dataStartSector chainBr ∧
    clusterStart chainBr 5 = dataStartSector chainBr + (5 - 2) * chainBr.cluster_size ∧
    clusterStart32 chainG32 2 = dataStartSector32 chainG32 ∧
    clusterStart32 chainG32 4 = dataStartSector32 chainG32 + (4 - 2) :=
  c7_cluster_to_sector chainBr chainG32 5 4 (by decide) (by decide) (by decide) (by decide)

/-- C8: in both variants and for both region kinds, a record whose
first name byte is 0x00 stops enumeration on the spot: the 16-bit
loop returns exactly the already-collected entries whatever the
region kind, budget state or remaining image contents, the 32-bit
per-cluster scan reports the terminator with the collected entries
untouched, and the 32-bit outer loop turns that report into the final
successful listing. -/
theorem c8_terminator_stops :
    (∀ (d : Disk) (br : BootRecord) (ir : Bool) (ec fuel cluster cnt pos : Nat)
        (es : List Entry16) (nm ex : List Nat),
        cnt ≠ ec →
        readBytes d pos 8 = some nm → readBytes d (pos + 8) 3 = some ex →
        nm.headD 1 = 0 →
        loop16 d br ir ec (fuel + 1) cluster cnt pos es = .ok es.reverse) ∧
    (∀ (d : Disk) (k pos : Nat) (es : List Entry32) (nm : List Nat),
        readBytes d pos 11 = some nm → nm.headD 1 = 0 →
        scan32 d (k + 1) pos es = .term es) ∧
    (∀ (d : Disk) (g : FAT32) (fuel cluster : Nat) (es es2 : List Entry32),
        2 ≤ cluster → cluster < 0xfffff0 →
        scan32 d (SECTOR_SIZE >>> 5)
          ((clusterStart32 g cluster * SECTOR_SIZE) % 4294967296) es = .term es2 →
        loop32 d g (fuel + 1) cluster es = .ok es2.reverse) := by
  refine ⟨?_, ?_, ?_⟩
  · intro d br ir ec fuel cluster cnt pos es nm ex hne h8 h3 hz
    rw [loop16, if_neg hne]
    unfold decode16
    rw [h8, h3]
    simp only [List.headD_eq_head?] at hz
    simp [hz]
  · intro d k pos es nm h11 hz
    rw [scan32, h11]
    simp only [List.headD_eq_head?] at hz
    simp [hz]
  · intro d g fuel cluster es es2 h2 hlt hscan
    rw [loop32, if_pos hlt, if_neg (by omega), hscan]

/-- C8, witness: in the synthetic fixed root region holding FILE1.TXT,
SUBDIR and a terminator, the loop state just past the two records
returns exactly them, and the whole read yields the two entries. -/
theorem c8_terminator_stops_witness :
    loop16 exRootDisk rootBr true 16 3 0 2 1088 [subdirE, fileE] = .ok [fileE, subdirE] ∧
    readDirectory16 exRootDisk rootBr 5 (.Root 2 16) = .ok [fileE, subdirE] :=
  ⟨c8_terminator_stops.1 exRootDisk rootBr true 16 2 0 2 1088 [subdirE, fileE]
      (List.replicate 8 0) (List.replicate 3 0) (by decide) rfl rfl rfl,
   by decide⟩

/-- C9: a record with attribute byte 0xf never appears in the entry
collection returned by read_directory, in either variant, for any
image, geometry, fuel and directory. -/
theorem c9_lfn_never_returned :
    (∀ (d : Disk) (br : BootRecord) (fuel : Nat) (dir : DirType) (res : List Entry16),
        readDirectory16 d br fuel dir = .ok res → ∀ e ∈ res, e.flags ≠ 0xf) ∧
    (∀ (d : Disk) (g : FAT32) (fuel cluster : Nat) (res : List Entry32),
        readDirectory32 d g fuel cluster = .ok res → ∀ e ∈ res, e.flags ≠ 0xf) := by
  constructor
  · intro d br fuel dir res h
    match dir with
    | .Root start cnt =>
      simp only [readDirectory16] at h
      exact loop16_flags d br true cnt fuel 0 0 _ [] res (by simp) h
    | .Regular start =>
      simp only [readDirectory16] at h
      split at h
      · exact Rd16.noConfusion h
      · split at h
        · cases h
          simp
        · exact loop16_flags d br false _ fuel start 0 _ [] res (by simp) h
  · intro d g fuel cluster res h
    exact loop32_flags d g fuel cluster [] res (by simp) h

/-- C9, witness: the image with a long-filename record between two
normal records yields exactly the two normal records, and the theorem
certifies the first returned entry's attribute byte. -/
theorem c9_lfn_never_returned_witness :
    readDirectory16 exLfn16Disk rootBr 6 (.Root 2 16) = .ok [mkE16 0, mkE16 1] ∧
    (mkE16 0).flags ≠ 0xf :=
  ⟨by decide,
   c9_lfn_never_returned.1 exLfn16Disk rootBr 6 (.Root 2 16) [mkE16 0, mkE16 1]
     (by decide) (mkE16 0) (by simp)⟩

/-- C10: every public string accessor is the UTF-8 decoding of its
raw field followed by unwrap and trim: it returns a value exactly
when the field's bytes are valid UTF-8 and panics (none) otherwise,
e.g. on an all-0xff label, while a space-padded ASCII label decodes
and is trimmed. -/
theorem c10_utf8_unwrap_accessors :
    (∀ br : BootRecord, (volumeName br).isSome ↔ (utf8Decode br.label).isSome) ∧
    (∀ e : Entry16, (entryName16 e).isSome ↔ (utf8Decode e.name).isSome) ∧
    (∀ e : Entry16, (entryExt16 e).isSome ↔ (utf8Decode e.ext).isSome) ∧
    (∀ g : FAT32, (volumeName32 g).isSome ↔ (utf8Decode g.label).isSome) ∧
    (∀ e : Entry32, (entryName32 e).isSome ↔ (utf8Decode (e.name.take 8)).isSome) ∧
    (∀ e : Entry32, (entryExt32 e).isSome ↔ (utf8Decode (e.name.drop 8)).isSome) ∧
    utf8Decode (List.replicate 11 0xff) = none ∧
    volumeName ⟨0, 0, 0, 0, 0, 0, 0, 0, 0, List.replicate 11 0xff⟩ = none ∧
    volumeName ⟨0, 0, 0, 0, 0, 0, 0, 0, 0,
        [0x4e, 0x4f, 0x20, 0x4e, 0x41, 0x4d, 0x45, 0x20, 0x20, 0x20, 0x20]⟩ =
      some [0x4e, 0x4f, 0x20, 0x4e, 0x41, 0x4d, 0x45] := by
  refine ⟨fun br => ?_, fun e => ?_, fun e => ?_, fun g => ?_, fun e => ?_, fun e => ?_,
    by decide, by decide, by decide⟩ <;>
    simp [volumeName, entryName16, entryExt16, volumeName32, entryName32, entryExt32]

end FatRs
